import Mathlib

/-
Verification of the OpenRelik Timesketch worker (src/src/tasks.py).

The two operations under study are `get_or_create_sketch` and the Celery task
`upload`.  Both are embedded shallowly: every call to a remote collaborator
(the Timesketch API client, the Redis lock, the import streamer) is recorded
as an `Event` in a trace, and Python exceptions are modelled with `Except`.
The remote collaborators themselves are abstract: a `TSClient` packages their
observable behaviour as pure functions, so theorems quantify over all
behaviours of the remote side.
-/

namespace ORTimesketch

/-- A Timesketch sketch handle: the worker only ever reads `id` and `name`. -/
structure Sketch where
  id : Nat
  name : String
deriving DecidableEq, Repr

/-- Python values that can arrive in `task_config["sketch_id"]`: the config is
a JSON-ish dict, so an id may be an integer or a string. -/
inductive PyVal where
  | vint : Int → PyVal
  | vstr : String → PyVal
deriving DecidableEq, Repr

/-- Python truthiness of such a value: `0` and `""` are falsy. -/
def PyVal.truthy : PyVal → Bool
  | .vint i => i != 0
  | .vstr s => s != ""

/-- Rendering of the value inside a Python f-string or error message. -/
def PyVal.pystr : PyVal → String
  | .vint i => toString i
  | .vstr s => s

/-- Decimal value of a digit list. -/
def digitsToNat (cs : List Char) : Nat :=
  cs.foldl (fun acc c => acc * 10 + (c.toNat - 48)) 0

/-- Sign handling and digit check after whitespace stripping. -/
def pyIntCore : List Char → Option Int
  | [] => none
  | c :: rest =>
    if c = Char.ofNat 45 then
      if rest ≠ [] ∧ rest.all Char.isDigit then some (-(digitsToNat rest : Int)) else none
    else if c = Char.ofNat 43 then
      if rest ≠ [] ∧ rest.all Char.isDigit then some (digitsToNat rest : Int) else none
    else
      if (c :: rest).all Char.isDigit then some (digitsToNat (c :: rest) : Int) else none

/-- Python `int(s)` on a string: optional surrounding whitespace, optional
sign, then at least one decimal digit; anything else raises `ValueError`. -/
def pyIntOfString (s : String) : Option Int :=
  pyIntCore (((s.data.dropWhile Char.isWhitespace).reverse.dropWhile
    Char.isWhitespace).reverse)

/-- Python `int(v)` as used on `sketch_id` (tasks.py line 59). -/
def pyInt : PyVal → Option Int
  | .vint i => some i
  | .vstr s => pyIntOfString s

/-- Truthiness of an optional config entry (`None` is falsy). -/
def optTruthy : Option PyVal → Bool
  | none => false
  | some v => v.truthy

/-- Truthiness of an optional string config entry. -/
def strTruthy : Option String → Bool
  | none => false
  | some s => s != ""

/-- Python rendering of an optional string inside an f-string: `None` prints
as the word None. -/
def pyShowOptStr : Option String → String
  | none => "None"
  | some s => s

/-- Exceptions the modelled code can raise.  `valueError` covers Python
`ValueError` (bad `int()` input, missing environment variables),
`runtimeError` the explicit `RuntimeError` raises, `genericError` the bare
`Exception` raise in `upload`, `apiFailure` an exception thrown by a remote
call itself, and `lockTimeout` the redis `LockError` when the lock cannot be
acquired within `blocking_timeout`. -/
inductive ApiError where
  | valueError : String → ApiError
  | runtimeError : String → ApiError
  | genericError : String → ApiError
  | apiFailure : String → ApiError
  | lockTimeout : ApiError
deriving DecidableEq, Repr

/-- The message shown when the exception is interpolated into an f-string. -/
def ApiError.message : ApiError → String
  | .valueError m => m
  | .runtimeError m => m
  | .genericError m => m
  | .apiFailure m => m
  | .lockTimeout => "Unable to acquire lock"

/-- One observable interaction with a remote collaborator. -/
inductive Event where
  | lockAcquire : String → Nat → Nat → Event
  | lockRelease : String → Event
  | getSketch : Int → Event
  | listSketches : Event
  | createSketch : String → Event
  | addToAcl : Nat → Bool → Event
  | streamFile : Nat → Option String → String → Event
deriving DecidableEq, Repr

/-- Observable behaviour of the Timesketch API client and the sketch/streamer
methods the worker calls.  Each field is the pure outcome of the given remote
call; `Except` lets a call raise. -/
structure TSClient where
  get_sketch : Int → Option Sketch
  create_sketch : String → Except ApiError (Option Sketch)
  list_sketches : Except ApiError (List Sketch)
  add_to_acl : Sketch → Bool → Except ApiError Unit
  add_file : Sketch → Option String → String → Except ApiError Unit

/-- Observable behaviour of the Redis lock service: whether
`redis_client.lock(key, timeout=60, blocking_timeout=5)` can be acquired. -/
structure RedisClient where
  lockAvailable : String → Bool

/-- One entry of the `input_files` list: the worker reads `path` and
`display_name` (the latter may be absent). -/
structure InputFile where
  path : String
  display_name : Option String
deriving DecidableEq, Repr

/-- The four environment variables read at the top of `upload`. -/
structure TSEnv where
  server_url : Option String
  public_url : Option String
  username : Option String
  password : Option String
deriving DecidableEq, Repr

/-- The user-supplied `task_config` dict. `make_sketch_public` is read with
`.get("make_sketch_public", True)`. -/
structure TaskConfig where
  sketch_id : Option PyVal
  sketch_name : Option String
  timeline_name : Option String
  make_sketch_public : Bool
deriving DecidableEq, Repr

/-- The result envelope built by `create_task_result` at the end of `upload`:
empty output-file list, the workflow id, a command label, and the sketch
link metadata. -/
structure TaskResult where
  output_files : List String
  workflow_id : String
  command : String
  sketch_link : String
deriving DecidableEq, Repr

/-- Default sketch name derivation (tasks.py line 63). -/
def defaultSketchName (workflow_id : String) : String :=
  "openrelik-workflow-" ++ workflow_id

/-- The `for _sketch in list_sketches(): if _sketch.name == sketch_name:
sketch = _sketch; break` loop (tasks.py lines 70-73): first match in list
order. -/
def findSketch (name : String) : List Sketch → Option Sketch
  | [] => none
  | s :: rest => if s.name = name then some s else findSketch name rest

/-- Body of the `else` branch of `get_or_create_sketch` (tasks.py lines
62-77): derive the default name, acquire the redis lock with
`timeout=60, blocking_timeout=5`, scan the listed sketches for the name,
create one if absent, and release the lock on every exit from the `with`
block. -/
def defaultBranch (client : TSClient) (redis : RedisClient) (workflow_id : String) :
    Except ApiError (Option Sketch) × List Event :=
  let name := defaultSketchName workflow_id
  if redis.lockAvailable name then
    let body : Except ApiError (Option Sketch) × List Event :=
      match client.list_sketches with
      | Except.error e => (Except.error e, [Event.listSketches])
      | Except.ok sketches =>
        match findSketch name sketches with
        | some s => (Except.ok (some s), [Event.listSketches])
        | none => (client.create_sketch name, [Event.listSketches, Event.createSketch name])
    (body.1, Event.lockAcquire name 60 5 :: (body.2 ++ [Event.lockRelease name]))
  else
    (Except.error ApiError.lockTimeout, [Event.lockAcquire name 60 5])

/-- The `elif sketch_name: ... else: ...` part of `get_or_create_sketch`
(tasks.py lines 60-77). -/
def nonIdBranch (client : TSClient) (redis : RedisClient)
    (sketch_name : Option String) (workflow_id : String) :
    Except ApiError (Option Sketch) × List Event :=
  if strTruthy sketch_name then
    let n := sketch_name.getD ""
    (client.create_sketch n, [Event.createSketch n])
  else
    defaultBranch client redis workflow_id

/-- `get_or_create_sketch` (tasks.py lines 24-79).  `sketch_id` truthy: fetch
by `int(sketch_id)` (a bad literal raises `ValueError` before any remote
call).  Else `sketch_name` truthy: create a sketch with that name.  Else: the
lock-guarded default-name branch.  Returns the sketch (possibly `None`)
together with the trace of remote interactions. -/
def get_or_create_sketch (client : TSClient) (redis : RedisClient)
    (sketch_id : Option PyVal) (sketch_name : Option String) (workflow_id : String) :
    Except ApiError (Option Sketch) × List Event :=
  match sketch_id with
  | some v =>
    if v.truthy then
      match pyInt v with
      | none =>
        (Except.error (ApiError.valueError
          ("invalid literal for int() with base 10: \x27" ++ v.pystr ++ "\x27")), [])
      | some i => (Except.ok (client.get_sketch i), [Event.getSketch i])
    else
      nonIdBranch client redis sketch_name workflow_id
  | none => nonIdBranch client redis sketch_name workflow_id

/-- The list of missing required environment variables, in the insertion
order of the `required_env_vars` dict (tasks.py lines 175-181).  A variable
is missing when it is unset or empty (`if not v`). -/
def missingVars (env : TSEnv) : List String :=
  (if strTruthy env.server_url then [] else ["TIMESKETCH_SERVER_URL"]) ++
  (if strTruthy env.public_url then [] else ["TIMESKETCH_SERVER_PUBLIC_URL"]) ++
  (if strTruthy env.username then [] else ["TIMESKETCH_USERNAME"]) ++
  (if strTruthy env.password then [] else ["TIMESKETCH_PASSWORD"])

/-- `sketch_identifier` construction (tasks.py lines 191-193): when
`sketch_id` is truthy only it is passed, otherwise only `sketch_name`; the
unpassed keyword keeps its default `None`.  This is the id argument. -/
def idArg (cfg : TaskConfig) : Option PyVal :=
  if optTruthy cfg.sketch_id then cfg.sketch_id else none

/-- The name argument of the `sketch_identifier` construction. -/
def nameArg (cfg : TaskConfig) : Option String :=
  if optTruthy cfg.sketch_id then none else cfg.sketch_name

/-- Timeline name choice per input file (tasks.py lines 229-231):
`task_config.get("timeline_name") or input_file.get("display_name")` —
Python `or`, so an unset or empty configured name falls back to the file
display name (itself possibly `None`). -/
def chooseTimeline (cfg : TaskConfig) (f : InputFile) : Option String :=
  if strTruthy cfg.timeline_name then cfg.timeline_name else f.display_name

/-- The streamer event recorded for one input file. -/
def streamEvent (sk : Sketch) (cfg : TaskConfig) (f : InputFile) : Event :=
  Event.streamFile sk.id (chooseTimeline cfg f) f.path

/-- The ACL phase of `upload` (tasks.py lines 214-224): one unconditional
`sketch.add_to_acl(make_public=True)` call, then — only if
`make_sketch_public` is truthy — a second call wrapped in try/except that
re-raises as `RuntimeError`. -/
def aclPhase (client : TSClient) (sk : Sketch) (cfg : TaskConfig) :
    Except ApiError Unit × List Event :=
  match client.add_to_acl sk true with
  | Except.error e => (Except.error e, [Event.addToAcl sk.id true])
  | Except.ok _ =>
    if cfg.make_sketch_public then
      match client.add_to_acl sk true with
      | Except.error e =>
        (Except.error (ApiError.runtimeError
          ("Failed to make sketch " ++ toString sk.id ++ " (\x27" ++ sk.name
            ++ "\x27) public: " ++ e.message)),
         [Event.addToAcl sk.id true, Event.addToAcl sk.id true])
      | Except.ok _ => (Except.ok (), [Event.addToAcl sk.id true, Event.addToAcl sk.id true])
    else
      (Except.ok (), [Event.addToAcl sk.id true])

/-- The import loop of `upload` (tasks.py lines 227-235): files are streamed
sequentially in list order; an exception from a streamer aborts the loop and
propagates. -/
def runImports (client : TSClient) (sk : Sketch) (cfg : TaskConfig) :
    List InputFile → Except ApiError Unit × List Event
  | [] => (Except.ok (), [])
  | f :: rest =>
    match client.add_file sk (chooseTimeline cfg f) f.path with
    | Except.error e => (Except.error e, [streamEvent sk cfg f])
    | Except.ok _ =>
      let r := runImports client sk cfg rest
      (r.1, streamEvent sk cfg f :: r.2)

/-- The `upload` Celery task (tasks.py lines 124-242).  Environment
validation raises `ValueError` enumerating every missing variable before any
remote interaction; then the sketch is resolved through
`get_or_create_sketch`, a `None` result raises the generic
`Failed to create or retrieve sketch` exception, the ACL phase and the
file loop run, and finally the result envelope is built with the
`<public_url>/sketch/<id>` link. -/
def upload (env : TSEnv) (client : TSClient) (redis : RedisClient)
    (input_files : List InputFile) (workflow_id : String) (cfg : TaskConfig) :
    Except ApiError TaskResult × List Event :=
  if missingVars env = [] then
    match get_or_create_sketch client redis (idArg cfg) (nameArg cfg) workflow_id with
    | (Except.error e, tr) => (Except.error e, tr)
    | (Except.ok none, tr) =>
      (Except.error (ApiError.genericError
        ("Failed to create or retrieve sketch \x27" ++ pyShowOptStr cfg.sketch_name ++ "\x27")), tr)
    | (Except.ok (some sk), tr) =>
      match aclPhase client sk cfg with
      | (Except.error e, tr2) => (Except.error e, tr ++ tr2)
      | (Except.ok _, tr2) =>
        match runImports client sk cfg input_files with
        | (Except.error e, tr3) => (Except.error e, tr ++ (tr2 ++ tr3))
        | (Except.ok _, tr3) =>
          (Except.ok
            { output_files := []
              workflow_id := workflow_id
              command := "Timesketch Importer Client"
              sketch_link := env.public_url.getD "" ++ "/sketch/" ++ toString sk.id },
           tr ++ (tr2 ++ tr3))
  else
    (Except.error (ApiError.valueError
      ("Missing required environment variables for Timesketch worker: "
        ++ String.intercalate ", " (missingVars env))), [])

/-
Concrete instantiations used by witnesses and by the evaluations of the
code at failing inputs.
-/

/-- A sketch that already carries the default name for workflow "77". -/
def demoSketch : Sketch := { id := 5, name := "openrelik-workflow-77" }

/-- A well-behaved remote side: id 123 exists, creation always succeeds,
the listing holds `demoSketch`, ACL and streaming succeed. -/
def demoClient : TSClient where
  get_sketch := fun i => if i = 123 then some { id := 123, name := "Existing" } else none
  create_sketch := fun n => Except.ok (some { id := 9, name := n })
  list_sketches := Except.ok [demoSketch]
  add_to_acl := fun _ _ => Except.ok ()
  add_file := fun _ _ _ => Except.ok ()

/-- A redis lock service whose locks are always available. -/
def demoRedis : RedisClient := { lockAvailable := fun _ => true }

/-- An environment with all four variables set. -/
def envFull : TSEnv :=
  { server_url := some "http://ts:5000"
    public_url := some "http://ts.example.com"
    username := some "admin"
    password := some "secret" }

/- Helper lemmas (shared, not tied to a single claim). -/

/-- The break-on-first-match loop is `List.find?` on name equality. -/
theorem findSketch_eq_find (name : String) (l : List Sketch) :
    findSketch name l = List.find? (fun s => s.name == name) l := by
  induction l with
  | nil => rfl
  | cons s rest ih =>
    simp only [findSketch, List.find?]
    by_cases h : s.name = name
    · simp [h]
    · have hb : (s.name == name) = false := by simp [h]
      simp [h, hb, ih]

/-- C1.  In the default-name branch (no id, no name) with the lock
available, the resolver derives the default name, lists the sketches while
holding the lock, and returns the first listed sketch whose name equals the
default name; exactly when there is no such sketch it performs one creation
with the default name and returns its outcome. -/
theorem default_branch_first_match_or_create
    (client : TSClient) (redis : RedisClient) (wf : String) (l : List Sketch)
    (hl : client.list_sketches = Except.ok l)
    (hlock : redis.lockAvailable (defaultSketchName wf) = true) :
    get_or_create_sketch client redis none none wf =
      match List.find? (fun s => s.name == defaultSketchName wf) l with
      | some s =>
        (Except.ok (some s),
         [Event.lockAcquire (defaultSketchName wf) 60 5, Event.listSketches,
          Event.lockRelease (defaultSketchName wf)])
      | none =>
        (client.create_sketch (defaultSketchName wf),
         [Event.lockAcquire (defaultSketchName wf) 60 5, Event.listSketches,
          Event.createSketch (defaultSketchName wf),
          Event.lockRelease (defaultSketchName wf)]) := by
  rw [← findSketch_eq_find]
  cases hf : findSketch (defaultSketchName wf) l with
  | none =>
    simp [get_or_create_sketch, nonIdBranch, strTruthy, defaultBranch, hlock, hl, hf]
  | some s =>
    simp [get_or_create_sketch, nonIdBranch, strTruthy, defaultBranch, hlock, hl, hf]

/-- Witness for C1: scenario D, workflow "77", a sketch named
openrelik-workflow-77 already listed: that sketch is returned and no
creation happens. -/
theorem default_branch_first_match_or_create_witness :
    get_or_create_sketch demoClient demoRedis none none "77" =
      (Except.ok (some demoSketch),
       [Event.lockAcquire "openrelik-workflow-77" 60 5, Event.listSketches,
        Event.lockRelease "openrelik-workflow-77"]) := by
  rw [default_branch_first_match_or_create demoClient demoRedis "77" [demoSketch] rfl rfl]
  rfl

/-- C2.  In the default-name branch with the lock available, whatever the
remote side does (match found, creation, or a raised error), the lock key is
exactly the derived default name "openrelik-workflow-" ++ workflowId, it is
acquired with lease 60 and acquire-wait bound 5 as the first interaction,
and the lock release is the last interaction of the block. -/
theorem default_branch_lock_discipline
    (client : TSClient) (redis : RedisClient) (wf : String)
    (hlock : redis.lockAvailable (defaultSketchName wf) = true) :
    defaultSketchName wf = "openrelik-workflow-" ++ wf ∧
    (get_or_create_sketch client redis none none wf).2.head? =
      some (Event.lockAcquire (defaultSketchName wf) 60 5) ∧
    (get_or_create_sketch client redis none none wf).2.getLast? =
      some (Event.lockRelease (defaultSketchName wf)) := by
  refine ⟨rfl, ?_, ?_⟩ <;>
    cases hl : client.list_sketches with
    | error e =>
      simp [get_or_create_sketch, nonIdBranch, strTruthy, defaultBranch, hlock, hl]
    | ok l =>
      cases hf : findSketch (defaultSketchName wf) l with
      | none =>
        simp [get_or_create_sketch, nonIdBranch, strTruthy, defaultBranch, hlock, hl, hf]
      | some s =>
        simp [get_or_create_sketch, nonIdBranch, strTruthy, defaultBranch, hlock, hl, hf]

/-- Witness for C2 at workflow "77" with the demo collaborators. -/
theorem default_branch_lock_discipline_witness :
    defaultSketchName "77" = "openrelik-workflow-" ++ "77" ∧
    (get_or_create_sketch demoClient demoRedis none none "77").2.head? =
      some (Event.lockAcquire (defaultSketchName "77") 60 5) ∧
    (get_or_create_sketch demoClient demoRedis none none "77").2.getLast? =
      some (Event.lockRelease (defaultSketchName "77")) :=
  default_branch_lock_discipline demoClient demoRedis "77" rfl

/-- C6.  Whenever `sketch_id` is truthy and convertible by `int()`,
resolution is exactly one direct lookup by that id whose result is returned
as-is; no lock acquisition, no list call, and any `sketch_name` also present
is ignored (id takes precedence). -/
theorem explicit_id_single_lookup
    (client : TSClient) (redis : RedisClient) (v : PyVal) (i : Int)
    (hv : v.truthy = true) (hi : pyInt v = some i)
    (nameOpt : Option String) (wf : String) :
    get_or_create_sketch client redis (some v) nameOpt wf =
      (Except.ok (client.get_sketch i), [Event.getSketch i]) := by
  simp [get_or_create_sketch, hv, hi]

/-- Witness for C6: scenario A, id 123 given together with a name; the
existing sketch is returned through a single lookup. -/
theorem explicit_id_single_lookup_witness :
    get_or_create_sketch demoClient demoRedis (some (PyVal.vint 123))
        (some "ignored") "77" =
      (Except.ok (some { id := 123, name := "Existing" }), [Event.getSketch 123]) := by
  rw [explicit_id_single_lookup demoClient demoRedis (PyVal.vint 123) 123 rfl rfl
        (some "ignored") "77"]
  rfl

/-- C9.  A truthy `sketch_id` that `int()` cannot convert makes resolution
raise a `ValueError` before any remote interaction: the trace is empty, so
no lookup, lock, list or creation happens. -/
theorem nonconvertible_id_raises_before_any_call
    (client : TSClient) (redis : RedisClient) (v : PyVal)
    (hv : v.truthy = true) (hi : pyInt v = none)
    (nameOpt : Option String) (wf : String) :
    get_or_create_sketch client redis (some v) nameOpt wf =
      (Except.error (ApiError.valueError
        ("invalid literal for int() with base 10: \x27" ++ v.pystr ++ "\x27")), []) := by
  simp [get_or_create_sketch, hv, hi]

/-- Witness for C9 at the non-numeric id "my-sketch". -/
theorem nonconvertible_id_raises_before_any_call_witness :
    get_or_create_sketch demoClient demoRedis (some (PyVal.vstr "my-sketch"))
        none "77" =
      (Except.error (ApiError.valueError
        ("invalid literal for int() with base 10: \x27my-sketch\x27")), []) := by
  rw [nonconvertible_id_raises_before_any_call demoClient demoRedis
        (PyVal.vstr "my-sketch") (by decide) (by decide) none "77"]
  rfl

/-- No branch other than the truthy-id one ever performs a lookup by id. -/
theorem getSketch_not_mem_nonIdBranch
    (client : TSClient) (redis : RedisClient) (nameOpt : Option String)
    (wf : String) (i : Int) :
    Event.getSketch i ∉ (nonIdBranch client redis nameOpt wf).2 := by
  by_cases hn : strTruthy nameOpt = true
  · simp [nonIdBranch, hn]
  · by_cases hlock : redis.lockAvailable (defaultSketchName wf) = true
    · cases hl : client.list_sketches with
      | error e => simp [nonIdBranch, hn, defaultBranch, hlock, hl]
      | ok l =>
        cases hf : findSketch (defaultSketchName wf) l with
        | none => simp [nonIdBranch, hn, defaultBranch, hlock, hl, hf]
        | some s => simp [nonIdBranch, hn, defaultBranch, hlock, hl, hf]
    · simp [nonIdBranch, hn, defaultBranch, hlock]

/-- C10.  Identity presence is truthiness, not presence: a falsy
`sketch_id` (0 or "") resolves exactly as if no id had been passed —
falling through to the name branch or the lock-guarded default branch —
and no id lookup is ever triggered. -/
theorem falsy_id_treated_as_absent
    (client : TSClient) (redis : RedisClient) (v : PyVal)
    (hv : v.truthy = false) (nameOpt : Option String) (wf : String) :
    get_or_create_sketch client redis (some v) nameOpt wf =
      get_or_create_sketch client redis none nameOpt wf ∧
    ∀ i : Int,
      Event.getSketch i ∉ (get_or_create_sketch client redis (some v) nameOpt wf).2 := by
  constructor
  · simp [get_or_create_sketch, hv]
  · intro i
    simp only [get_or_create_sketch, hv, Bool.false_eq_true, if_false]
    exact getSketch_not_mem_nonIdBranch client redis nameOpt wf i

/-- Witness for C10 at sketch_id = 0: resolution takes the name branch. -/
theorem falsy_id_treated_as_absent_witness :
    (get_or_create_sketch demoClient demoRedis (some (PyVal.vint 0))
        (some "Case42") "77" =
      get_or_create_sketch demoClient demoRedis none (some "Case42") "77") ∧
    Event.getSketch 0 ∉
      (get_or_create_sketch demoClient demoRedis (some (PyVal.vint 0))
        (some "Case42") "77").2 :=
  ⟨(falsy_id_treated_as_absent demoClient demoRedis (PyVal.vint 0) rfl
      (some "Case42") "77").1,
   (falsy_id_treated_as_absent demoClient demoRedis (PyVal.vint 0) rfl
      (some "Case42") "77").2 0⟩

/-- C7.  When any required environment variable is missing, `upload` raises
the `ValueError` whose message joins every missing variable name (in the
declaration order of the dict), and its trace is empty: no remote
interaction happens before the failure. -/
theorem missing_env_vars_fail_before_remote_calls
    (env : TSEnv) (client : TSClient) (redis : RedisClient)
    (files : List InputFile) (wf : String) (cfg : TaskConfig)
    (h : ¬ missingVars env = []) :
    upload env client redis files wf cfg =
      (Except.error (ApiError.valueError
        ("Missing required environment variables for Timesketch worker: "
          ++ String.intercalate ", " (missingVars env))), []) := by
  unfold upload
  rw [if_neg h]

/-- An environment missing the server URL and with an empty password. -/
def envMissingTwo : TSEnv :=
  { server_url := none
    public_url := some "http://ts.example.com"
    username := some "admin"
    password := some "" }

/-- A configuration addressing an existing sketch by id. -/
def demoCfg : TaskConfig :=
  { sketch_id := some (PyVal.vint 123)
    sketch_name := none
    timeline_name := none
    make_sketch_public := true }

/-- Witness for C7: with the server URL unset and the password empty, both
names are enumerated in the error and nothing is called. -/
theorem missing_env_vars_fail_before_remote_calls_witness :
    upload envMissingTwo demoClient demoRedis [] "77" demoCfg =
      (Except.error (ApiError.valueError
        ("Missing required environment variables for Timesketch worker: "
          ++ "TIMESKETCH_SERVER_URL, TIMESKETCH_PASSWORD")), []) := by
  rw [missing_env_vars_fail_before_remote_calls envMissingTwo demoClient demoRedis
        [] "77" demoCfg (by decide)]
  rfl

/-- Streaming a list of files all of which the remote side accepts yields
one stream event per file, in list order. -/
theorem runImports_all_ok (client : TSClient) (sk : Sketch) (cfg : TaskConfig)
    (fs : List InputFile)
    (h : ∀ f ∈ fs, client.add_file sk (chooseTimeline cfg f) f.path = Except.ok ()) :
    runImports client sk cfg fs = (Except.ok (), fs.map (streamEvent sk cfg)) := by
  induction fs with
  | nil => rfl
  | cons f rest ih =>
    have hf := h f (by simp)
    have hr := ih (fun g hg => h g (by simp [hg]))
    simp [runImports, hf, hr]

/-- Streaming stops at the first failing file: the failure propagates and
no later file is submitted. -/
theorem runImports_stops_at_error (client : TSClient) (sk : Sketch)
    (cfg : TaskConfig) (pre : List InputFile) (bad : InputFile)
    (post : List InputFile) (e : ApiError)
    (hpre : ∀ f ∈ pre, client.add_file sk (chooseTimeline cfg f) f.path = Except.ok ())
    (hbad : client.add_file sk (chooseTimeline cfg bad) bad.path = Except.error e) :
    runImports client sk cfg (pre ++ bad :: post) =
      (Except.error e, pre.map (streamEvent sk cfg) ++ [streamEvent sk cfg bad]) := by
  induction pre with
  | nil => simp [runImports, hbad]
  | cons f rest ih =>
    have hf := hpre f (by simp)
    have hr := ih (fun g hg => hpre g (by simp [hg]))
    simp [runImports, hf, hr]

/-- C8.  After a successful resolution and ACL phase, input files are
streamed sequentially in the order given, each bound to the timeline name
`config.timeline_name` when that is set and the file display name otherwise;
if streaming of one file fails, no later file is submitted and the task
fails with that error. -/
theorem upload_sequential_imports
    (env : TSEnv) (client : TSClient) (redis : RedisClient) (wf : String)
    (cfg : TaskConfig) (sk : Sketch) (rtr atr : List Event)
    (pre : List InputFile) (bad : InputFile) (post : List InputFile) (e : ApiError)
    (henv : missingVars env = [])
    (hres : get_or_create_sketch client redis (idArg cfg) (nameArg cfg) wf =
      (Except.ok (some sk), rtr))
    (hacl : aclPhase client sk cfg = (Except.ok (), atr))
    (hpre : ∀ f ∈ pre, client.add_file sk (chooseTimeline cfg f) f.path = Except.ok ())
    (hbad : client.add_file sk (chooseTimeline cfg bad) bad.path = Except.error e) :
    (∀ fs : List InputFile,
      (∀ f ∈ fs, client.add_file sk (chooseTimeline cfg f) f.path = Except.ok ()) →
      upload env client redis fs wf cfg =
        (Except.ok
          { output_files := []
            workflow_id := wf
            command := "Timesketch Importer Client"
            sketch_link := env.public_url.getD "" ++ "/sketch/" ++ toString sk.id },
         rtr ++ (atr ++ fs.map (streamEvent sk cfg)))) ∧
    upload env client redis (pre ++ bad :: post) wf cfg =
      (Except.error e,
       rtr ++ (atr ++ (pre.map (streamEvent sk cfg) ++ [streamEvent sk cfg bad]))) := by
  constructor
  · intro fs hfs
    simp [upload, henv, hres, hacl, runImports_all_ok client sk cfg fs hfs]
  · simp [upload, henv, hres, hacl,
      runImports_stops_at_error client sk cfg pre bad post e hpre hbad]

/-- A remote side whose streamer rejects exactly the file at path
bad.plaso. -/
def demoClientImp : TSClient where
  get_sketch := fun i => if i = 42 then some { id := 42, name := "wf-sketch" } else none
  create_sketch := fun n => Except.ok (some { id := 42, name := n })
  list_sketches := Except.ok []
  add_to_acl := fun _ _ => Except.ok ()
  add_file := fun _ _ p =>
    if p = "bad.plaso" then Except.error (ApiError.apiFailure "boom") else Except.ok ()

/-- A configuration addressing sketch 42 by id. -/
def demoCfg42 : TaskConfig :=
  { sketch_id := some (PyVal.vint 42)
    sketch_name := none
    timeline_name := none
    make_sketch_public := true }

/-- Witness for C8: scenario F with files ok.plaso, bad.plaso, never.plaso —
the first is streamed, the second fails, the third is never submitted and
the task fails. -/
theorem upload_sequential_imports_witness :
    upload envFull demoClientImp demoRedis
        [{ path := "ok.plaso", display_name := some "A" },
         { path := "bad.plaso", display_name := none },
         { path := "never.plaso", display_name := some "C" }] "77" demoCfg42 =
      (Except.error (ApiError.apiFailure "boom"),
       [Event.getSketch 42] ++
        ([Event.addToAcl 42 true, Event.addToAcl 42 true] ++
         ([Event.streamFile 42 (some "A") "ok.plaso"] ++
          [Event.streamFile 42 none "bad.plaso"]))) :=
  (upload_sequential_imports envFull demoClientImp demoRedis "77" demoCfg42
    { id := 42, name := "wf-sketch" }
    [Event.getSketch 42] [Event.addToAcl 42 true, Event.addToAcl 42 true]
    [{ path := "ok.plaso", display_name := some "A" }]
    { path := "bad.plaso", display_name := none }
    [{ path := "never.plaso", display_name := some "C" }]
    (ApiError.apiFailure "boom") rfl rfl rfl
    (by intro f hf; simp only [List.mem_singleton] at hf; subst hf; rfl) rfl).2

/-- A remote side on which no sketch id exists. -/
def clientNotFound : TSClient where
  get_sketch := fun _ => none
  create_sketch := fun n => Except.ok (some { id := 9, name := n })
  list_sketches := Except.ok []
  add_to_acl := fun _ _ => Except.ok ()
  add_file := fun _ _ _ => Except.ok ()

/-- A configuration asking for the non-existent sketch id 999. -/
def cfg999 : TaskConfig :=
  { sketch_id := some (PyVal.vint 999)
    sketch_name := none
    timeline_name := none
    make_sketch_public := true }

/-- C3, evaluation at the failing input: with sketch_id 999 absent remotely,
the resolver returns None instead of raising, and `upload` then raises the
generic `Failed to create or retrieve sketch` exception whose message
interpolates the (unset) sketch_name — so it mentions None, not 999.  The
trace contains only the lookup: no file import is attempted. -/
theorem missing_id_generic_error_no_import :
    upload envFull clientNotFound demoRedis
        [{ path := "a.plaso", display_name := some "A" }] "77" cfg999 =
      (Except.error (ApiError.genericError
        "Failed to create or retrieve sketch \x27None\x27"),
       [Event.getSketch 999]) := rfl

/-- A remote side whose creation call returns no handle. -/
def clientCreateNone : TSClient where
  get_sketch := fun _ => none
  create_sketch := fun _ => Except.ok none
  list_sketches := Except.ok []
  add_to_acl := fun _ _ => Except.ok ()
  add_file := fun _ _ _ => Except.ok ()

/-- A configuration giving only an explicit sketch name. -/
def cfgNamed : TaskConfig :=
  { sketch_id := none
    sketch_name := some "Test Sketch"
    timeline_name := none
    make_sketch_public := true }

/-- C4, evaluation at the failing input: with an explicit name the resolver
does create unconditionally with no lock and no reuse, but when creation
returns no handle it returns None instead of raising a creation error; the
driver then fails with the generic `Failed to create or retrieve sketch`
exception. -/
theorem name_create_none_generic_error :
    get_or_create_sketch clientCreateNone demoRedis none (some "Test Sketch") "77" =
      (Except.ok none, [Event.createSketch "Test Sketch"]) ∧
    upload envFull clientCreateNone demoRedis [] "77" cfgNamed =
      (Except.error (ApiError.genericError
        "Failed to create or retrieve sketch \x27Test Sketch\x27"),
       [Event.createSketch "Test Sketch"]) :=
  ⟨rfl, rfl⟩

/-- A configuration addressing sketch 123 with make_sketch_public false. -/
def cfgPrivate : TaskConfig :=
  { sketch_id := some (PyVal.vint 123)
    sketch_name := none
    timeline_name := none
    make_sketch_public := false }

/-- C5, evaluation at the failing input: with make_sketch_public false, the
unconditional `add_to_acl(make_public=True)` call before the conditional
block still runs, so one visibility-changing call is made on the sketch even
though the flag is off. -/
theorem private_flag_still_calls_acl :
    cfgPrivate.make_sketch_public = false ∧
    (upload envFull demoClient demoRedis [] "77" cfgPrivate).2 =
      [Event.getSketch 123, Event.addToAcl 123 true] :=
  ⟨rfl, rfl⟩

end ORTimesketch
